import Mathlib

/-!
Verification development for the talktollm extension of openclaw.

The TypeScript sources under src/extensions/talktollm are shallowly
embedded here:

* JavaScript `Map` objects (which preserve insertion order and have
  unique keys) are embedded as association lists with `mapGet`,
  `mapSet` (update in place, append when absent) and `mapDelete`.
* JavaScript `Set` objects are embedded as duplicate-free lists with
  `addElem` (append when absent) and `removeElem` (filter).
* The stateful handlers are embedded as pure state-passing functions
  that additionally return the ordered list of observable effects
  (frames sent over the socket, dispatch invocations, push calls).
  Results of external collaborators (agent dispatch, APNs lookup and
  auth, random UUID generation, `Date.now()`) are passed in as
  explicit parameters.
-/

namespace Talktollm

/-! ## Association-list embedding of JavaScript `Map` -/

def mapGet {α : Type} (m : List (String × α)) (k : String) : Option α :=
  match m with
  | [] => none
  | (k', v) :: rest => if k' = k then some v else mapGet rest k

def mapSet {α : Type} (m : List (String × α)) (k : String) (v : α) : List (String × α) :=
  match m with
  | [] => [(k, v)]
  | (k', v') :: rest => if k' = k then (k, v) :: rest else (k', v') :: mapSet rest k v

def mapDelete {α : Type} (m : List (String × α)) (k : String) : List (String × α) :=
  m.filter (fun p => decide (p.1 ≠ k))

/-! ## List embedding of JavaScript `Set` -/

def addElem (l : List String) (x : String) : List String :=
  if x ∈ l then l else l ++ [x]

def removeElem (l : List String) (x : String) : List String :=
  l.filter (fun y => decide (y ≠ x))

theorem mapGet_mapSet_self {α : Type} (m : List (String × α)) (k : String) (v : α) :
    mapGet (mapSet m k v) k = some v := by
  induction m with
  | nil => simp [mapGet, mapSet]
  | cons p rest ih =>
    obtain ⟨k', v'⟩ := p
    by_cases h : k' = k
    · simp [mapGet, mapSet, h]
    · simp [mapGet, mapSet, h, ih]

theorem mapGet_mapSet_ne {α : Type} (m : List (String × α)) (k k' : String) (v : α)
    (h : k' ≠ k) : mapGet (mapSet m k v) k' = mapGet m k' := by
  induction m with
  | nil => simp [mapGet, mapSet, Ne.symm h]
  | cons p rest ih =>
    obtain ⟨k0, v0⟩ := p
    by_cases h0 : k0 = k
    · subst h0
      simp [mapGet, mapSet, Ne.symm h]
    · by_cases h1 : k0 = k'
      · subst h1
        simp [mapGet, mapSet, h0, h]
      · simp [mapGet, mapSet, h0, h1, ih]

theorem mapGet_mapDelete_self {α : Type} (m : List (String × α)) (k : String) :
    mapGet (mapDelete m k) k = none := by
  induction m with
  | nil => simp [mapGet, mapDelete]
  | cons p rest ih =>
    obtain ⟨k0, v0⟩ := p
    by_cases h0 : k0 = k
    · simpa [mapDelete, h0] using ih
    · simpa [mapDelete, mapGet, h0] using ih

theorem mapGet_mapDelete_ne {α : Type} (m : List (String × α)) (k k' : String)
    (h : k' ≠ k) : mapGet (mapDelete m k) k' = mapGet m k' := by
  induction m with
  | nil => simp [mapGet, mapDelete]
  | cons p rest ih =>
    obtain ⟨k0, v0⟩ := p
    by_cases h0 : k0 = k
    · subst h0
      simpa [mapDelete, mapGet, Ne.symm h] using ih
    · by_cases h1 : k0 = k'
      · subst h1
        simp [mapDelete, mapGet, h0]
      · simpa [mapDelete, mapGet, h0, h1] using ih

theorem mem_addElem (l : List String) (x : String) : x ∈ addElem l x := by
  unfold addElem
  by_cases h : x ∈ l <;> simp [h]

theorem mem_addElem_iff (l : List String) (x y : String) :
    y ∈ addElem l x ↔ y ∈ l ∨ y = x := by
  unfold addElem
  by_cases h : x ∈ l
  · simp [h]
    intro hy; subst hy; exact h
  · simp [h]

theorem not_mem_removeElem (l : List String) (x : String) : x ∉ removeElem l x := by
  simp [removeElem]

theorem mem_removeElem_iff (l : List String) (x y : String) :
    y ∈ removeElem l x ↔ y ∈ l ∧ y ≠ x := by
  simp [removeElem]

theorem removeElem_idem (l : List String) (x : String) :
    removeElem (removeElem l x) x = removeElem l x := by
  simp [removeElem, List.filter_filter]

/-! ## session-registry.ts

Bidirectional mapping between deviceId and sessionKey, embedded from
src/extensions/talktollm/src/session-registry.ts.
-/

structure SessionRegistry where
  deviceToSessions : List (String × List String)
  sessionToDevices : List (String × List String)
deriving Repr, DecidableEq

def SessionRegistry.empty : SessionRegistry := ⟨[], []⟩

/-- Embeds getSessionsForDevice: `sessions ? [...sessions] : []`. -/
def getSessionsForDevice (deviceId : String) (r : SessionRegistry) : List String :=
  (mapGet r.deviceToSessions deviceId).getD []

/-- Embeds getDevicesForSession: `devices ? [...devices] : []`. -/
def getDevicesForSession (sessionKey : String) (r : SessionRegistry) : List String :=
  (mapGet r.sessionToDevices sessionKey).getD []

/-- Embeds registerDeviceSession: get-or-create the set on each side of the
relation and add the other key to it. -/
def registerDeviceSession (deviceId sessionKey : String) (r : SessionRegistry) :
    SessionRegistry :=
  let sessions := (mapGet r.deviceToSessions deviceId).getD []
  let devices := (mapGet r.sessionToDevices sessionKey).getD []
  { deviceToSessions := mapSet r.deviceToSessions deviceId (addElem sessions sessionKey)
    sessionToDevices := mapSet r.sessionToDevices sessionKey (addElem devices deviceId) }

/-- One iteration of the unregisterDevice loop body: delete `deviceId` from the
device set of `sessionKey`, dropping the session key entirely when its set
becomes empty. -/
def removeDeviceStep (deviceId : String) (m : List (String × List String))
    (sessionKey : String) : List (String × List String) :=
  match mapGet m sessionKey with
  | none => m
  | some devices =>
      let devices2 := removeElem devices deviceId
      if devices2 = [] then mapDelete m sessionKey else mapSet m sessionKey devices2

/-- Embeds unregisterDevice: if the device has no session set, do nothing;
otherwise remove the device from every listed session and delete its entry. -/
def unregisterDevice (deviceId : String) (r : SessionRegistry) : SessionRegistry :=
  match mapGet r.deviceToSessions deviceId with
  | none => r
  | some sessions =>
      { deviceToSessions := mapDelete r.deviceToSessions deviceId
        sessionToDevices := sessions.foldl (removeDeviceStep deviceId) r.sessionToDevices }

/-- Embeds clearSessionRegistry. -/
def clearSessionRegistry (_r : SessionRegistry) : SessionRegistry := SessionRegistry.empty

/-- The action of one `removeDeviceStep` on the value stored at its own key. -/
def removeDeviceVal (deviceId : String) (o : Option (List String)) : Option (List String) :=
  match o with
  | none => none
  | some devices =>
      let devices2 := removeElem devices deviceId
      if devices2 = [] then none else some devices2

theorem removeDeviceVal_idem (d : String) (o : Option (List String)) :
    removeDeviceVal d (removeDeviceVal d o) = removeDeviceVal d o := by
  match o with
  | none => rfl
  | some devices =>
    simp only [removeDeviceVal]
    by_cases h : removeElem devices d = []
    · simp [h]
    · simp [h, removeElem_idem]

theorem mapGet_removeDeviceStep_self (d : String) (m : List (String × List String))
    (sk : String) :
    mapGet (removeDeviceStep d m sk) sk = removeDeviceVal d (mapGet m sk) := by
  unfold removeDeviceStep removeDeviceVal
  match h : mapGet m sk with
  | none => simp [h]
  | some devices =>
    by_cases h2 : removeElem devices d = []
    · simp [h2, mapGet_mapDelete_self]
    · simp [h2, mapGet_mapSet_self]

theorem mapGet_removeDeviceStep_ne (d : String) (m : List (String × List String))
    (sk sk' : String) (h : sk' ≠ sk) :
    mapGet (removeDeviceStep d m sk) sk' = mapGet m sk' := by
  unfold removeDeviceStep
  match hg : mapGet m sk with
  | none => simp [hg]
  | some devices =>
    by_cases h2 : removeElem devices d = []
    · simp [h2, mapGet_mapDelete_ne m sk sk' h]
    · simp [h2, mapGet_mapSet_ne m sk sk' _ h]

/-- Characterization of the unregisterDevice fold: a key in the processed list
has the step function applied to its value, every other key is untouched. -/
theorem mapGet_fold_removeDeviceStep (d : String) (ss : List String)
    (m : List (String × List String)) (sk : String) :
    mapGet (ss.foldl (removeDeviceStep d) m) sk =
      if sk ∈ ss then removeDeviceVal d (mapGet m sk) else mapGet m sk := by
  induction ss generalizing m with
  | nil => simp
  | cons a t ih =>
    simp only [List.foldl_cons, ih]
    by_cases hmem : sk ∈ t
    · by_cases ha : sk = a
      · subst ha
        simp [hmem, mapGet_removeDeviceStep_self, removeDeviceVal_idem]
      · simp [hmem, mapGet_removeDeviceStep_ne d m a sk ha, List.mem_cons]
    · by_cases ha : sk = a
      · subst ha
        simp [hmem, mapGet_removeDeviceStep_self]
      · simp [hmem, ha, mapGet_removeDeviceStep_ne d m a sk ha, List.mem_cons]

/-! ## Bidirectional consistency of the session registry -/

/-- The invariant documented in the data model: the relation is
symmetric-queryable, membership on one side matches membership on the other. -/
def Consistent (r : SessionRegistry) : Prop :=
  ∀ d s, s ∈ getSessionsForDevice d r ↔ d ∈ getDevicesForSession s r

theorem consistent_empty : Consistent SessionRegistry.empty := by
  intro d s
  simp [getSessionsForDevice, getDevicesForSession, SessionRegistry.empty, mapGet]

theorem getSessionsForDevice_register (d s d' : String) (r : SessionRegistry) :
    getSessionsForDevice d' (registerDeviceSession d s r) =
      if d' = d then addElem (getSessionsForDevice d r) s
      else getSessionsForDevice d' r := by
  unfold getSessionsForDevice registerDeviceSession
  by_cases h : d' = d
  · subst h
    simp [mapGet_mapSet_self]
  · simp [h, mapGet_mapSet_ne _ _ _ _ h]

theorem getDevicesForSession_register (d s s' : String) (r : SessionRegistry) :
    getDevicesForSession s' (registerDeviceSession d s r) =
      if s' = s then addElem (getDevicesForSession s r) d
      else getDevicesForSession s' r := by
  unfold getDevicesForSession registerDeviceSession
  by_cases h : s' = s
  · subst h
    simp [mapGet_mapSet_self]
  · simp [h, mapGet_mapSet_ne _ _ _ _ h]

theorem consistent_register (d s : String) (r : SessionRegistry)
    (hr : Consistent r) : Consistent (registerDeviceSession d s r) := by
  intro d0 s0
  rw [getSessionsForDevice_register, getDevicesForSession_register]
  by_cases hd : d0 = d <;> by_cases hs : s0 = s
  · subst hd; subst hs
    simp [mem_addElem]
  · subst hd
    simp [hs, mem_addElem_iff, hr d0 s0]
  · subst hs
    simp [hd, mem_addElem_iff, hr d0 s0]
  · simp [hd, hs, hr d0 s0]

theorem getSessionsForDevice_unregister_self (d : String) (r : SessionRegistry) :
    getSessionsForDevice d (unregisterDevice d r) = [] := by
  unfold getSessionsForDevice unregisterDevice
  match h : mapGet r.deviceToSessions d with
  | none => simp [h]
  | some sessions => simp [mapGet_mapDelete_self]

theorem getSessionsForDevice_unregister_ne (d d' : String) (r : SessionRegistry)
    (h : d' ≠ d) :
    getSessionsForDevice d' (unregisterDevice d r) = getSessionsForDevice d' r := by
  unfold getSessionsForDevice unregisterDevice
  match hg : mapGet r.deviceToSessions d with
  | none => simp [hg]
  | some sessions => simp [mapGet_mapDelete_ne _ _ _ h]

theorem mapGet_unregister_sessionToDevices (d : String) (r : SessionRegistry)
    (sk : String) :
    mapGet (unregisterDevice d r).sessionToDevices sk =
      if sk ∈ getSessionsForDevice d r then removeDeviceVal d (mapGet r.sessionToDevices sk)
      else mapGet r.sessionToDevices sk := by
  unfold unregisterDevice
  match hg : mapGet r.deviceToSessions d with
  | none => simp [getSessionsForDevice, hg]
  | some sessions =>
    simp only [getSessionsForDevice, hg, Option.getD_some]
    exact mapGet_fold_removeDeviceStep d sessions r.sessionToDevices sk

theorem not_mem_devices_unregister (d : String) (r : SessionRegistry)
    (hr : Consistent r) (sk : String) :
    d ∉ getDevicesForSession sk (unregisterDevice d r) := by
  unfold getDevicesForSession
  rw [mapGet_unregister_sessionToDevices]
  by_cases hmem : sk ∈ getSessionsForDevice d r
  · simp only [hmem, if_pos]
    match hv : mapGet r.sessionToDevices sk with
    | none => simp [removeDeviceVal]
    | some devices =>
      simp only [removeDeviceVal]
      by_cases h2 : removeElem devices d = []
      · simp [h2]
      · simp only [h2, if_neg, Option.getD_some]
        exact not_mem_removeElem devices d
  · simp only [hmem, if_neg, not_false_iff]
    intro hd
    exact hmem ((hr d sk).mpr hd)

theorem empty_session_removed_unregister (d : String) (r : SessionRegistry)
    (hr : Consistent r) (sk : String) (h : getDevicesForSession sk r = [d]) :
    mapGet (unregisterDevice d r).sessionToDevices sk = none := by
  have hmem : d ∈ getDevicesForSession sk r := by simp [h]
  have hsk : sk ∈ getSessionsForDevice d r := (hr d sk).mpr hmem
  have hv : mapGet r.sessionToDevices sk = some [d] := by
    unfold getDevicesForSession at h
    match hg : mapGet r.sessionToDevices sk with
    | none => rw [hg] at h; simp at h
    | some devices => rw [hg] at h; simp at h; rw [h]
  rw [mapGet_unregister_sessionToDevices, if_pos hsk, hv]
  simp [removeDeviceVal, removeElem]

theorem mem_devices_unregister_other (d d2 : String) (r : SessionRegistry)
    (hd : d2 ≠ d) (sk : String) :
    d2 ∈ getDevicesForSession sk (unregisterDevice d r) ↔
      d2 ∈ getDevicesForSession sk r := by
  unfold getDevicesForSession
  rw [mapGet_unregister_sessionToDevices]
  by_cases hmem : sk ∈ getSessionsForDevice d r
  · simp only [hmem, if_pos]
    match hv : mapGet r.sessionToDevices sk with
    | none => simp [removeDeviceVal]
    | some devices =>
      simp only [removeDeviceVal, Option.getD_some]
      by_cases h2 : removeElem devices d = []
      · simp only [h2, if_pos, Option.getD_none, List.not_mem_nil, false_iff]
        intro hd2
        have : d2 ∈ removeElem devices d := (mem_removeElem_iff devices d d2).mpr ⟨hd2, hd⟩
        rw [h2] at this
        exact List.not_mem_nil d2 this
      · simp only [h2, if_neg, Option.getD_some]
        exact (mem_removeElem_iff devices d d2).trans (by simp [hd])
  · simp [hmem]

theorem consistent_unregister (d : String) (r : SessionRegistry)
    (hr : Consistent r) : Consistent (unregisterDevice d r) := by
  intro d0 s0
  by_cases hd : d0 = d
  · subst hd
    rw [getSessionsForDevice_unregister_self]
    simp only [List.not_mem_nil, false_iff]
    exact not_mem_devices_unregister d0 r hr s0
  · rw [getSessionsForDevice_unregister_ne d d0 r hd,
        mem_devices_unregister_other d d0 r hd s0]
    exact hr d0 s0

/-! ## ws-handler.ts

Embedding of handleWsMessage from src/extensions/talktollm/src/ws-handler.ts.
The handler is a function of the parsed inbound frame; JSON parsing itself is
out of scope, so the input is either `invalid` (unparseable) or the parsed
object, with absent or non-string fields embedded as `none`. Collaborator
results are parameters: `now` stands for Date.now(), `genKey` and `genMsgId`
for the two crypto.randomUUID() calls, `pushRegOk` for the outcome of
registerApnsToken, and `outcome` for the streamed chunks and final outcome of
dispatchInboundMessage through the reply dispatcher. -/

/-- Server-to-client frames (JSON bodies restricted to the fields used). -/
inductive Frame
  | error (message : String)
  | pong
  | pushRegistered
  | ack (idempotencyKey : String) (status : String)
  | typing (sessionKey : String) (isTyping : Bool)
  | agentText (sessionKey : String) (text : String) (messageId : String)
  | agentDone (sessionKey : String) (messageId : String)
  | connected
  | tick
deriving Repr, DecidableEq

/-- Observable effects of the handler, in program order. `recordKey` is the
write to the idempotency map, `registerSession` the session-registry update,
`dispatch` the invocation of dispatchInboundMessage (text, session key, runId),
`apnsRegister` the registerApnsToken call, `closeConn` a connection close
(never emitted by the handler, listed so that its absence is expressible). -/
inductive Effect
  | send (f : Frame)
  | recordKey (key : String) (expiresAt : Nat)
  | registerSession (deviceId : String) (sessionKey : String)
  | dispatch (text : String) (sessionKey : String) (runId : String)
  | apnsRegister (token : String) (topic : String)
  | closeConn (code : Nat)
deriving Repr, DecidableEq

/-- A parsed inbound message object. -/
structure WsMsg where
  type : Option String
  sessionKey : Option String
  text : Option String
  idempotencyKey : Option String
  token : Option String
  topic : Option String
deriving Repr, DecidableEq

inductive InboundRaw
  | invalid
  | msg (m : WsMsg)
deriving Repr, DecidableEq

/-- Result of the asynchronous dispatch: the chunks the reply dispatcher
delivered, and whether the dispatch promise resolved or rejected. -/
inductive DispatchOutcome
  | ok (chunks : List String)
  | failed (chunks : List String) (errMsg : String)
deriving Repr, DecidableEq

structure HandlerState where
  recentKeys : List (String × Nat)
  registry : SessionRegistry
deriving Repr, DecidableEq

def HandlerState.init : HandlerState := ⟨[], SessionRegistry.empty⟩

def IDEMPOTENCY_TTL_MS : Nat := 5 * 60 * 1000

def isTokenChar (c : Char) : Bool :=
  c.isAlphanum || c = '_' || c = '-'

/-- Character-level embedding of JavaScript String.prototype.trim. -/
def trimList (l : List Char) : List Char :=
  ((l.dropWhile Char.isWhitespace).reverse.dropWhile Char.isWhitespace).reverse

def trimStr (s : String) : String :=
  String.mk (trimList s.data)

/-- Split a character list on the colon character. -/
def splitCols (l : List Char) : List (List Char) :=
  match l with
  | [] => [[]]
  | c :: rest =>
    if c = ':' then [] :: splitCols rest
    else
      match splitCols rest with
      | [] => [[c]]
      | h :: t => (c :: h) :: t

/-- Embeds SESSION_KEY_RE = /^agent:[a-zA-Z0-9_-]+:[a-zA-Z0-9_-]+$/ as a test
on the three colon-separated parts. -/
def sessionKeyValid (s : String) : Bool :=
  match splitCols s.data with
  | [a, b, c] =>
      decide (a = "agent".data) && decide (b ≠ []) && decide (c ≠ []) &&
        b.all isTokenChar && c.all isTokenChar
  | _ => false

/-- Embeds sendFrame: writes only when the socket is open. -/
def sendFrame (wsOpen : Bool) (f : Frame) : List Effect :=
  if wsOpen then [Effect.send f] else []

/-- The resolved idempotency key: the trimmed client key when non-empty,
otherwise the generated UUID. -/
def resolvedKey (ik : Option String) (genKey : String) : String :=
  match ik with
  | some k => if trimStr k = "" then genKey else trimStr k
  | none => genKey

/-- Whether the client supplied a (non-empty, trimmed) idempotency key. -/
def hasClientKeyB (ik : Option String) : Bool :=
  match ik with
  | some k => decide (trimStr k ≠ "")
  | none => false

/-- The idempotency-duplicate test: a client-supplied key whose recorded
expiry is truthy and still in the future. -/
def isDuplicateB (ik : Option String) (genKey : String)
    (recent : List (String × Nat)) (now : Nat) : Bool :=
  hasClientKeyB ik &&
    match mapGet recent (resolvedKey ik genKey) with
    | some expiresAt => decide (0 < expiresAt) && decide (now < expiresAt)
    | none => false

/-- How JavaScript prints the type in the unknown-type error message. -/
def showMsgType (t : Option String) : String :=
  match t with
  | none => "undefined"
  | some s => s

/-- Embedding of handleWsMessage. The returned list is the ordered trace of
observable effects of one call, with the asynchronous dispatch continuation
(streamed agentText frames, then the completion frames) linearized after the
synchronous part, which matches the per-message frame order on the socket. -/
def handleWsMessage (wsOpen : Bool) (deviceId : String) (raw : InboundRaw)
    (now : Nat) (genKey genMsgId : String) (pushRegOk : Bool)
    (outcome : DispatchOutcome) (st : HandlerState) : HandlerState × List Effect :=
  match raw with
  | InboundRaw.invalid => (st, sendFrame wsOpen (Frame.error "invalid JSON"))
  | InboundRaw.msg m =>
    if m.type = some "ping" then
      (st, sendFrame wsOpen Frame.pong)
    else if m.type = some "push.register" then
      let token := m.token.getD ""
      let topic := m.topic.getD ""
      if token = "" ∨ topic = "" then
        (st, sendFrame wsOpen (Frame.error "push.register requires token and topic"))
      else
        (st, Effect.apnsRegister token topic ::
          (if pushRegOk then sendFrame wsOpen Frame.pushRegistered
           else sendFrame wsOpen (Frame.error "push.register failed")))
    else if m.type ≠ some "message" then
      (st, sendFrame wsOpen (Frame.error ("unknown message type: " ++ showMsgType m.type)))
    else
      match m.sessionKey with
      | none => (st, sendFrame wsOpen (Frame.error "sessionKey is required"))
      | some rawSessionKey =>
        if rawSessionKey = "" then
          (st, sendFrame wsOpen (Frame.error "sessionKey is required"))
        else
          let sessionKey := trimStr rawSessionKey
          if ¬ sessionKeyValid sessionKey then
            (st, sendFrame wsOpen
              (Frame.error "Invalid sessionKey format. Expected: agent:<name>:<conversation>"))
          else
            match m.text with
            | none => (st, sendFrame wsOpen (Frame.error "text is required"))
            | some rawText =>
              if rawText = "" ∨ trimStr rawText = "" then
                (st, sendFrame wsOpen (Frame.error "text is required"))
              else
                let text := trimStr rawText
                let idempotencyKey := resolvedKey m.idempotencyKey genKey
                let isDuplicate := isDuplicateB m.idempotencyKey genKey st.recentKeys now
                if isDuplicate then
                  (st, sendFrame wsOpen (Frame.ack idempotencyKey "duplicate"))
                else
                  let st2 : HandlerState :=
                    { recentKeys := mapSet st.recentKeys idempotencyKey (now + IDEMPOTENCY_TTL_MS)
                      registry := registerDeviceSession deviceId sessionKey st.registry }
                  let streamed :=
                    match outcome with
                    | DispatchOutcome.ok chunks => chunks
                    | DispatchOutcome.failed chunks _ => chunks
                  let ending :=
                    match outcome with
                    | DispatchOutcome.ok _ =>
                        sendFrame wsOpen (Frame.typing sessionKey false) ++
                        sendFrame wsOpen (Frame.agentDone sessionKey genMsgId)
                    | DispatchOutcome.failed _ _ =>
                        sendFrame wsOpen (Frame.error "dispatch failed") ++
                        sendFrame wsOpen (Frame.typing sessionKey false) ++
                        sendFrame wsOpen (Frame.agentDone sessionKey genMsgId)
                  (st2,
                    Effect.recordKey idempotencyKey (now + IDEMPOTENCY_TTL_MS) ::
                    Effect.registerSession deviceId sessionKey ::
                    sendFrame wsOpen (Frame.ack idempotencyKey "started") ++
                    sendFrame wsOpen (Frame.typing sessionKey true) ++
                    Effect.dispatch text sessionKey idempotencyKey ::
                    (streamed.map
                      (fun c => sendFrame wsOpen (Frame.agentText sessionKey c genMsgId))).flatten ++
                    ending)

/-- Frames actually written to the socket, in order. -/
def framesOf (effects : List Effect) : List Frame :=
  effects.filterMap (fun e =>
    match e with
    | Effect.send f => some f
    | _ => none)

/-- Number of dispatch invocations in a trace. -/
def countDispatch (effects : List Effect) : Nat :=
  (effects.filter (fun e =>
    match e with
    | Effect.dispatch _ _ _ => true
    | _ => false)).length

/-- A parsed application message with the given sessionKey, text and optional
idempotency key. -/
def mkMsg (sk t : String) (ik : Option String) : WsMsg :=
  ⟨some "message", some sk, some t, ik, none, none⟩

/-- Protocol validity of the sessionKey and text fields of an inbound
application message. -/
def ValidParts (rawSk rawT : String) : Prop :=
  rawSk ≠ "" ∧ sessionKeyValid (trimStr rawSk) = true ∧ rawT ≠ "" ∧ trimStr rawT ≠ ""

/-- The chunks streamed by the reply dispatcher for an outcome. -/
def chunksOf (outcome : DispatchOutcome) : List String :=
  match outcome with
  | DispatchOutcome.ok chunks => chunks
  | DispatchOutcome.failed chunks _ => chunks

/-- The full effect trace of a fresh, valid application message over an open
socket (see `handleWsMessage_fresh`). -/
def messageTrace (deviceId sessionKey text idempotencyKey : String) (now : Nat)
    (genMsgId : String) (outcome : DispatchOutcome) : List Effect :=
  Effect.recordKey idempotencyKey (now + IDEMPOTENCY_TTL_MS) ::
  Effect.registerSession deviceId sessionKey ::
  Effect.send (Frame.ack idempotencyKey "started") ::
  Effect.send (Frame.typing sessionKey true) ::
  Effect.dispatch text sessionKey idempotencyKey ::
  ((chunksOf outcome).map (fun c => Effect.send (Frame.agentText sessionKey c genMsgId))
    ++ (match outcome with
        | DispatchOutcome.ok _ =>
            [Effect.send (Frame.typing sessionKey false),
             Effect.send (Frame.agentDone sessionKey genMsgId)]
        | DispatchOutcome.failed _ _ =>
            [Effect.send (Frame.error "dispatch failed"),
             Effect.send (Frame.typing sessionKey false),
             Effect.send (Frame.agentDone sessionKey genMsgId)]))

theorem flatten_map_singleton {α β : Type} (l : List α) (f : α → β) :
    (l.map (fun c => [f c])).flatten = l.map f := by
  induction l with
  | nil => rfl
  | cons c rest ih => simp [ih]

/-- On an open socket, a valid application message that is not an idempotency
duplicate records the key, registers the session, and produces the full
ack/typing/dispatch/stream/completion trace. -/
theorem handleWsMessage_fresh
    (deviceId rawSk rawT : String) (ik : Option String) (now : Nat)
    (genKey genMsgId : String) (pushRegOk : Bool) (outcome : DispatchOutcome)
    (st : HandlerState) (hv : ValidParts rawSk rawT)
    (hdup : isDuplicateB ik genKey st.recentKeys now = false) :
    handleWsMessage true deviceId (InboundRaw.msg (mkMsg rawSk rawT ik)) now genKey genMsgId
        pushRegOk outcome st
      = ({ recentKeys :=
             mapSet st.recentKeys (resolvedKey ik genKey) (now + IDEMPOTENCY_TTL_MS)
           registry := registerDeviceSession deviceId (trimStr rawSk) st.registry },
         messageTrace deviceId (trimStr rawSk) (trimStr rawT) (resolvedKey ik genKey) now
           genMsgId outcome) := by
  obtain ⟨h1, h2, h3, h4⟩ := hv
  cases outcome with
  | ok chunks =>
      simp [handleWsMessage, mkMsg, h1, h2, h3, h4, hdup, sendFrame, messageTrace, chunksOf,
        flatten_map_singleton]
  | failed chunks errMsg =>
      simp [handleWsMessage, mkMsg, h1, h2, h3, h4, hdup, sendFrame, messageTrace, chunksOf,
        flatten_map_singleton]

/-- On an open socket, a valid application message whose client-supplied key
is an unexpired duplicate is acknowledged with status duplicate and has no
other effect. -/
theorem handleWsMessage_duplicate
    (deviceId rawSk rawT : String) (ik : Option String) (now : Nat)
    (genKey genMsgId : String) (pushRegOk : Bool) (outcome : DispatchOutcome)
    (st : HandlerState) (hv : ValidParts rawSk rawT)
    (hdup : isDuplicateB ik genKey st.recentKeys now = true) :
    handleWsMessage true deviceId (InboundRaw.msg (mkMsg rawSk rawT ik)) now genKey genMsgId
        pushRegOk outcome st
      = (st, [Effect.send (Frame.ack (resolvedKey ik genKey) "duplicate")]) := by
  obtain ⟨h1, h2, h3, h4⟩ := hv
  simp [handleWsMessage, mkMsg, h1, h2, h3, h4, hdup, sendFrame]

theorem countDispatch_messageTrace (deviceId sessionKey text idempotencyKey : String)
    (now : Nat) (genMsgId : String) (outcome : DispatchOutcome) :
    countDispatch (messageTrace deviceId sessionKey text idempotencyKey now genMsgId outcome)
      = 1 := by
  have hmap : ∀ (l : List String) (f : String → Frame),
      (l.map (fun c => Effect.send (f c))).filter (fun e =>
        match e with
        | Effect.dispatch _ _ _ => true
        | _ => false) = [] := by
    intro l f
    induction l with
    | nil => rfl
    | cons c rest ih => simp [List.filter, ih]
  cases outcome with
  | ok chunks =>
      simp [messageTrace, countDispatch, chunksOf, List.filter_append, hmap]
  | failed chunks errMsg =>
      simp [messageTrace, countDispatch, chunksOf, List.filter_append, hmap]

theorem framesOf_messageTrace (deviceId sessionKey text idempotencyKey : String)
    (now : Nat) (genMsgId : String) (outcome : DispatchOutcome) :
    framesOf (messageTrace deviceId sessionKey text idempotencyKey now genMsgId outcome)
      = [Frame.ack idempotencyKey "started", Frame.typing sessionKey true]
        ++ (chunksOf outcome).map (fun c => Frame.agentText sessionKey c genMsgId)
        ++ (match outcome with
            | DispatchOutcome.ok _ => []
            | DispatchOutcome.failed _ _ => [Frame.error "dispatch failed"])
        ++ [Frame.typing sessionKey false, Frame.agentDone sessionKey genMsgId] := by
  have hmap : ∀ (l : List String) (f : String → Frame),
      (l.map (fun c => Effect.send (f c))).filterMap (fun e =>
        match e with
        | Effect.send fr => some fr
        | _ => none) = l.map f := by
    intro l f
    induction l with
    | nil => rfl
    | cons c rest ih => simpa [List.filterMap] using ih
  cases outcome with
  | ok chunks =>
      simp [messageTrace, framesOf, chunksOf, List.filterMap_append, hmap]
  | failed chunks errMsg =>
      simp [messageTrace, framesOf, chunksOf, List.filterMap_append, hmap]

/-! ## outbound.ts

Embedding of talktollmOutboundAdapter.sendText from
src/extensions/talktollm/src/outbound.ts. Text is embedded at the character
level (`List Char`) because the function slices it by length. Collaborator
results are parameters: `wsClient` is the getConnectedClient result together
with whether readyState is OPEN, `lookupReg` the loadApnsRegistration result
(`none` also when the lookup threw), the `cfg*` arguments the talktollm
channel-config fields, and `auth` the resolveApnsAuthConfigFromEnv result. -/

def MAX_PAYLOAD_TEXT_LENGTH : Nat := 2000

def ellipsis : List Char := ['.', '.', '.']

structure ApnsRegistration where
  nodeId : String
  token : String
  topic : String
  environment : String
  updatedAtMs : Nat
deriving Repr, DecidableEq

/-- APNs auth material resolved from the environment (kept abstract). -/
structure ApnsAuth where
  keyId : String
  teamId : String
deriving Repr, DecidableEq

/-- The custom payload handed to sendApnsAlert. -/
structure ApnsPayload where
  kind : String
  messageId : String
  sessionKey : String
  text : List Char
deriving Repr, DecidableEq

structure SendResult where
  channel : String
  messageId : String
  chatId : String
  timestamp : Nat
deriving Repr, DecidableEq

inductive OutEffect
  | wsSend (sessionKey : String) (text : List Char) (messageId : String) (final : Bool)
  | apnsSend (registration : ApnsRegistration) (title : String) (body : List Char)
      (payload : ApnsPayload)
deriving Repr, DecidableEq

/-- Embedding of sendText. `deviceId` is the `to` argument, `messageId` the
randomUUID() result, `now` the Date.now() value used in the returned result. -/
def sendText (deviceId : String) (text : List Char) (messageId : String) (now : Nat)
    (wsClient : Option Bool) (lookupReg : Option ApnsRegistration)
    (cfgToken cfgTopic cfgEnv : Option String) (auth : Option ApnsAuth) :
    List OutEffect × SendResult :=
  let sessionKey := deviceId
  let result : SendResult := ⟨"talktollm", messageId, deviceId, now⟩
  match wsClient with
  | some true =>
      ([OutEffect.wsSend sessionKey text messageId true], result)
  | _ =>
      let registration : Option ApnsRegistration :=
        match lookupReg with
        | some r => some r
        | none =>
            let apnsToken := cfgToken.getD ""
            let apnsTopic := cfgTopic.getD ""
            let apnsEnvironment := cfgEnv.getD "sandbox"
            if apnsToken ≠ "" ∧ apnsTopic ≠ "" then
              some ⟨deviceId, apnsToken, apnsTopic, apnsEnvironment, now⟩
            else none
      match registration with
      | none => ([], result)
      | some reg =>
          match auth with
          | none => ([], result)
          | some _ =>
              let truncatedBody :=
                if text.length > 200 then text.take 197 ++ ellipsis else text
              let payloadText :=
                if text.length > MAX_PAYLOAD_TEXT_LENGTH then text.take MAX_PAYLOAD_TEXT_LENGTH
                else text
              ([OutEffect.apnsSend reg "New message" truncatedBody
                  ⟨"talktollm.message", messageId, sessionKey, payloadText⟩],
               result)

/-- The sendApnsAlert invocations in an outbound trace: (alert body, payload text). -/
def apnsCallsOf (effects : List OutEffect) : List (List Char × List Char) :=
  effects.filterMap (fun e =>
    match e with
    | OutEffect.apnsSend _ _ body payload => some (body, payload.text)
    | _ => none)

/-! ## event-listener.ts

Embedding of the agent event listener (startAgentEventListener callback,
markDispatchActive, markDispatchComplete). The subscription machinery is
external; the embedded function is the per-event handler. `devicesFor` stands
for getDevicesForSession against the current session registry, `isOpen` for
getConnectedClient plus the readyState check in sendToDevice, `resolveText`
for resolveAssistantStreamDeltaText, and `genId` for the crypto.randomUUID()
call that names a new run buffer. -/

structure AgentEvt where
  runId : String
  seq : Nat
  stream : String
  phase : Option String
  sessionKey : Option String
deriving Repr, DecidableEq

structure ListenerState where
  activeDispatchRunIds : List String
  deliveredMessageIds : List String
  runBuffers : List (String × String)
deriving Repr, DecidableEq

def ListenerState.init : ListenerState := ⟨[], [], []⟩

def markDispatchActive (runId : String) (st : ListenerState) : ListenerState :=
  { st with activeDispatchRunIds := addElem st.activeDispatchRunIds runId }

def markDispatchComplete (runId : String) (st : ListenerState) : ListenerState :=
  { st with activeDispatchRunIds := removeElem st.activeDispatchRunIds runId }

def isMessageDelivered (messageId : String) (st : ListenerState) : Bool :=
  decide (messageId ∈ st.deliveredMessageIds)

/-- Embeds sendToDevice: a frame reaches the device only when a connection is
registered and open. -/
def sendToDevice (isOpen : String → Bool) (deviceId : String) (f : Frame) :
    List (String × Frame) :=
  if isOpen deviceId then [(deviceId, f)] else []

/-- Embeds the `keep last 1000` pruning of deliveredMessageIds. -/
def pruneDelivered (l : List String) : List String :=
  if l.length > 1000 then l.drop (l.length - 1000) else l

/-- Embedding of the onAgentEvent callback installed by
startAgentEventListener. Returns the successor state and the frames sent,
each tagged with the target device. -/
def handleAgentEvent (devicesFor : String → List String) (isOpen : String → Bool)
    (resolveText : AgentEvt → String) (genId : String)
    (st : ListenerState) (evt : AgentEvt) : ListenerState × List (String × Frame) :=
  if evt.runId ∈ st.activeDispatchRunIds then (st, [])
  else
    match evt.sessionKey with
    | none => (st, [])
    | some sessionKey =>
      let deviceIds := devicesFor sessionKey
      if deviceIds = [] then (st, [])
      else if evt.stream = "assistant" then
        let text := resolveText evt
        if text = "" then (st, [])
        else
          let messageId :=
            match mapGet st.runBuffers evt.runId with
            | some buf => buf
            | none => genId
          let st2 :=
            match mapGet st.runBuffers evt.runId with
            | some _ => st
            | none => { st with runBuffers := mapSet st.runBuffers evt.runId genId }
          (st2,
           (deviceIds.map (fun d =>
              sendToDevice isOpen d (Frame.agentText sessionKey text messageId))).flatten)
      else if evt.stream = "lifecycle" then
        if evt.phase ≠ some "end" ∧ evt.phase ≠ some "error" then (st, [])
        else
          match mapGet st.runBuffers evt.runId with
          | none => (st, [])
          | some messageId =>
            let delivered := addElem st.deliveredMessageIds messageId
            let st2 : ListenerState :=
              { activeDispatchRunIds := st.activeDispatchRunIds
                deliveredMessageIds := pruneDelivered delivered
                runBuffers := mapDelete st.runBuffers evt.runId }
            (st2,
             (deviceIds.map (fun d =>
                sendToDevice isOpen d (Frame.agentDone sessionKey messageId))).flatten)
      else (st, [])

/-! ## ws-server.ts (client registry, eviction and close handler)

The transport machinery (http server, timers) is out of scope; embedded here
are the client-registry mutations of the connection lifecycle: the
authenticated-registration step including eviction of a previous connection
for the same deviceId, and the close handler with its only-if-current guard.
Connections are identified by numeric handles; `isOpen` gives the readyState
of a handle at the moment the step runs. -/

/-- Embeds the post-auth registration step of startWsServer: close any prior
open connection for the device (close code 4005, "replaced by new
connection"), then store the new connection. Returns the new registry and the
list of (connection, close code) effects. -/
def evictAndRegister (clients : List (String × Nat)) (isOpen : Nat → Bool)
    (deviceId : String) (conn : Nat) : List (String × Nat) × List (Nat × Nat) :=
  let closes :=
    match mapGet clients deviceId with
    | some existing => if isOpen existing then [(existing, 4005)] else []
    | none => []
  (mapSet clients deviceId conn, closes)

/-- Embeds the ws close handler for an authenticated connection: remove the
connection from the registry only when it is still the registered one, and
always unregister the device from the session registry. -/
def closeHandler (clients : List (String × Nat)) (registry : SessionRegistry)
    (deviceId : String) (conn : Nat) : List (String × Nat) × SessionRegistry :=
  (if mapGet clients deviceId = some conn then mapDelete clients deviceId else clients,
   unregisterDevice deviceId registry)

/-- Embeds getWsConnectedDeviceIds. -/
def getWsConnectedDeviceIds (clients : List (String × Nat)) : List String :=
  clients.map Prod.fst

/-! ## Claim C1 -/

/-- A push registration resolves: the lookup returned one, or the channel
config carries a non-empty token and topic. -/
def RegistrationResolves (lookupReg : Option ApnsRegistration)
    (cfgToken cfgTopic : Option String) : Prop :=
  lookupReg ≠ none ∨ (cfgToken.getD "" ≠ "" ∧ cfgTopic.getD "" ≠ "")

/-- The two delivery-arbitration facts claimed for sendText: with a live open
connection the trace is exactly one connection write and the result, no APNs
call; without one, given a resolvable registration and auth, exactly one APNs
call whose alert body is at most 200 characters, ellipsis-truncated exactly
when the text exceeded 200 characters, with payload text at most 2000
characters. -/
def C1Spec (deviceId messageId : String) (text : List Char) (now : Nat)
    (wsClient : Option Bool) (lookupReg : Option ApnsRegistration)
    (cfgToken cfgTopic cfgEnv : Option String) (auth : ApnsAuth) : Prop :=
  (sendText deviceId text messageId now (some true) lookupReg cfgToken cfgTopic cfgEnv
      (some auth)
    = ([OutEffect.wsSend deviceId text messageId true],
       ⟨"talktollm", messageId, deviceId, now⟩))
  ∧ (∃ body payloadText,
      apnsCallsOf
        (sendText deviceId text messageId now wsClient lookupReg cfgToken cfgTopic cfgEnv
          (some auth)).1 = [(body, payloadText)]
      ∧ body.length ≤ 200
      ∧ (200 < text.length → body = text.take 197 ++ ellipsis)
      ∧ (text.length ≤ 200 → body = text)
      ∧ payloadText.length ≤ 2000)

/-- C1: with a live open connection registered for the device, sendText never
invokes sendApnsAlert and returns a result after delivering over the
connection; with no live connection, a resolvable registration and resolved
auth credentials, sendText invokes sendApnsAlert exactly once, with alert body
at most 200 characters (ellipsis-suffixed exactly when the text exceeded 200)
and payload text at most 2000 characters. -/
theorem C1_delivery_arbitration
    (deviceId messageId : String) (text : List Char) (now : Nat)
    (wsClient : Option Bool) (lookupReg : Option ApnsRegistration)
    (cfgToken cfgTopic cfgEnv : Option String) (auth : ApnsAuth)
    (hNoConn : wsClient = none ∨ wsClient = some false)
    (hReg : RegistrationResolves lookupReg cfgToken cfgTopic) :
    C1Spec deviceId messageId text now wsClient lookupReg cfgToken cfgTopic cfgEnv auth := by
  constructor
  · rfl
  · have hbody :
        (if text.length > 200 then text.take 197 ++ ellipsis else text).length ≤ 200
        ∧ (200 < text.length →
            (if text.length > 200 then text.take 197 ++ ellipsis else text)
              = text.take 197 ++ ellipsis)
        ∧ (text.length ≤ 200 →
            (if text.length > 200 then text.take 197 ++ ellipsis else text) = text) := by
      by_cases h : text.length > 200
      · refine ⟨?_, fun _ => by simp [h], fun hle => absurd h (by omega)⟩
        simp only [if_pos h, List.length_append, List.length_take, ellipsis,
          List.length_cons, List.length_nil]
        omega
      · refine ⟨?_, fun hgt => absurd hgt h, fun _ => by simp [h]⟩
        simp only [if_neg h]
        omega
    have hpayload :
        (if text.length > MAX_PAYLOAD_TEXT_LENGTH then text.take MAX_PAYLOAD_TEXT_LENGTH
          else text).length ≤ 2000 := by
      simp only [MAX_PAYLOAD_TEXT_LENGTH]
      by_cases h : text.length > 2000
      · simp only [if_pos h, List.length_take]
        omega
      · simp only [if_neg h]
        omega
    refine ⟨_, _, ?_, hbody.1, hbody.2.1, hbody.2.2, hpayload⟩
    rcases hNoConn with h | h <;> subst h
    all_goals
      rcases lookupReg with _ | reg
      · rcases hReg with h | ⟨h1, h2⟩
        · exact absurd rfl h
        · simp [sendText, apnsCallsOf, h1, h2]
      · simp [sendText, apnsCallsOf]

/-- Closed witness for C1 at a concrete input: no live connection, a looked-up
registration, resolved auth, and a short text. -/
theorem C1_witness :
    (((none : Option Bool) = none ∨ (none : Option Bool) = some false)
      ∧ RegistrationResolves (some ⟨"d1", "tok", "com.app", "sandbox", 0⟩) none none)
    ∧ C1Spec "d1" "m1" "hello".data 5 none (some ⟨"d1", "tok", "com.app", "sandbox", 0⟩)
        none none none ⟨"key1", "team1"⟩ :=
  ⟨⟨Or.inl rfl, Or.inl (by decide)⟩,
   C1_delivery_arbitration "d1" "m1" "hello".data 5 none
     (some ⟨"d1", "tok", "com.app", "sandbox", 0⟩) none none none ⟨"key1", "team1"⟩
     (Or.inl rfl) (Or.inl (by decide))⟩

/-! ## Claim C2 -/

/-- The idempotency facts claimed for handleWsMessage, for a first call with
fresh client key k followed by any second valid call carrying k: the first
call records k (with the 5-minute TTL) as its first observable effect and
dispatches exactly once; a second call before the recorded expiry is answered
with a duplicate ack and has no other effect; a call at or after the expiry
dispatches again. -/
def C2Spec (deviceId rawSk rawT k : String) (now : Nat) (genKey genMsgId : String)
    (outcome : DispatchOutcome) (st : HandlerState) : Prop :=
  let call1 := handleWsMessage true deviceId (InboundRaw.msg (mkMsg rawSk rawT (some k)))
    now genKey genMsgId true outcome st
  call1.2.head? = some (Effect.recordKey k (now + IDEMPOTENCY_TTL_MS))
  ∧ countDispatch call1.2 = 1
  ∧ mapGet call1.1.recentKeys k = some (now + IDEMPOTENCY_TTL_MS)
  ∧ (∀ rawSk2 rawT2 now2 genKey2 genMsgId2 outcome2,
      ValidParts rawSk2 rawT2 → now2 < now + IDEMPOTENCY_TTL_MS →
      handleWsMessage true deviceId (InboundRaw.msg (mkMsg rawSk2 rawT2 (some k))) now2
          genKey2 genMsgId2 true outcome2 call1.1
        = (call1.1, [Effect.send (Frame.ack k "duplicate")]))
  ∧ (∀ rawSk2 rawT2 now2 genKey2 genMsgId2 outcome2,
      ValidParts rawSk2 rawT2 → now + IDEMPOTENCY_TTL_MS ≤ now2 →
      countDispatch (handleWsMessage true deviceId
          (InboundRaw.msg (mkMsg rawSk2 rawT2 (some k))) now2 genKey2 genMsgId2 true outcome2
          call1.1).2 = 1)

/-- C2: the first handleWsMessage call carrying a fresh client idempotency key
records it with a 5-minute TTL before any other observable effect and invokes
dispatch exactly once; a second call carrying the key within the TTL is
acknowledged with status duplicate and performs no dispatch and no other
effect; a call carrying the key at or after its expiry timestamp is treated as
a new message and dispatches again. -/
theorem C2_idempotency (deviceId rawSk rawT k : String) (now : Nat)
    (genKey genMsgId : String) (outcome : DispatchOutcome) (st : HandlerState)
    (hv : ValidParts rawSk rawT) (hk1 : trimStr k = k) (hk2 : k ≠ "")
    (hfresh : mapGet st.recentKeys k = none) :
    C2Spec deviceId rawSk rawT k now genKey genMsgId outcome st := by
  have hres : ∀ g, resolvedKey (some k) g = k := by
    intro g
    simp [resolvedKey, hk1, hk2]
  have hdup1 : isDuplicateB (some k) genKey st.recentKeys now = false := by
    simp [isDuplicateB, hres, hfresh]
  have hcall1 := handleWsMessage_fresh deviceId rawSk rawT (some k) now genKey genMsgId
    true outcome st hv hdup1
  rw [hres] at hcall1
  simp only [C2Spec, hcall1]
  refine ⟨rfl, countDispatch_messageTrace _ _ _ _ _ _ _,
    mapGet_mapSet_self st.recentKeys k (now + IDEMPOTENCY_TTL_MS), ?_, ?_⟩
  · intro rawSk2 rawT2 now2 genKey2 genMsgId2 outcome2 hv2 hlt
    have hdup2 : isDuplicateB (some k) genKey2
        (mapSet st.recentKeys k (now + IDEMPOTENCY_TTL_MS)) now2 = true := by
      simp [isDuplicateB, hasClientKeyB, hres, hk1, hk2,
        mapGet_mapSet_self st.recentKeys k (now + IDEMPOTENCY_TTL_MS)]
      constructor
      · simp [IDEMPOTENCY_TTL_MS]
      · exact hlt
    have := handleWsMessage_duplicate deviceId rawSk2 rawT2 (some k) now2 genKey2 genMsgId2
      true outcome2 ⟨mapSet st.recentKeys k (now + IDEMPOTENCY_TTL_MS),
        registerDeviceSession deviceId (trimStr rawSk) st.registry⟩ hv2 hdup2
    rw [hres] at this
    exact this
  · intro rawSk2 rawT2 now2 genKey2 genMsgId2 outcome2 hv2 hge
    have hdup3 : isDuplicateB (some k) genKey2
        (mapSet st.recentKeys k (now + IDEMPOTENCY_TTL_MS)) now2 = false := by
      simp [isDuplicateB, hasClientKeyB, hres, hk1, hk2,
        mapGet_mapSet_self st.recentKeys k (now + IDEMPOTENCY_TTL_MS)]
      intro
      omega
    rw [handleWsMessage_fresh deviceId rawSk2 rawT2 (some k) now2 genKey2 genMsgId2
      true outcome2 _ hv2 hdup3]
    exact countDispatch_messageTrace _ _ _ _ _ _ _

/-- Closed witness for C2 at a concrete fresh key. -/
theorem C2_witness :
    (ValidParts "agent:main:main" "hi" ∧ trimStr "idem-1" = "idem-1" ∧ "idem-1" ≠ ""
      ∧ mapGet HandlerState.init.recentKeys "idem-1" = none)
    ∧ C2Spec "d1" "agent:main:main" "hi" "idem-1" 0 "gen" "mid"
        (DispatchOutcome.ok ["hello"]) HandlerState.init :=
  ⟨⟨⟨by decide, by decide, by decide, by decide⟩, by decide, by decide, rfl⟩,
   C2_idempotency "d1" "agent:main:main" "hi" "idem-1" 0 "gen" "mid"
     (DispatchOutcome.ok ["hello"]) HandlerState.init
     ⟨by decide, by decide, by decide, by decide⟩ (by decide) (by decide) rfl⟩

/-! ## Claim C4 -/

/-- The per-message frame order claimed for a valid, fresh inbound message:
ack started, typing on, the streamed agentText frames (all tagged with the
one generated message id), on failure an error frame, then typing off and
agentDone with the same message id, last. -/
def C4Spec (deviceId rawSk rawT : String) (ik : Option String) (now : Nat)
    (genKey genMsgId : String) (outcome : DispatchOutcome) (st : HandlerState) : Prop :=
  framesOf (handleWsMessage true deviceId (InboundRaw.msg (mkMsg rawSk rawT ik)) now genKey
      genMsgId true outcome st).2
    = [Frame.ack (resolvedKey ik genKey) "started", Frame.typing (trimStr rawSk) true]
      ++ (chunksOf outcome).map (fun c => Frame.agentText (trimStr rawSk) c genMsgId)
      ++ (match outcome with
          | DispatchOutcome.ok _ => []
          | DispatchOutcome.failed _ _ => [Frame.error "dispatch failed"])
      ++ [Frame.typing (trimStr rawSk) false, Frame.agentDone (trimStr rawSk) genMsgId]

/-- C4: for every valid inbound message with a fresh idempotency key, the
frames emitted occur in the order ack started, typing on, zero or more
agentText frames, (error frame first on dispatch failure,) typing off,
agentDone, with every agentText and the agentDone frame carrying the one
message id generated for the invocation. -/
theorem C4_frame_order (deviceId rawSk rawT : String) (ik : Option String) (now : Nat)
    (genKey genMsgId : String) (outcome : DispatchOutcome) (st : HandlerState)
    (hv : ValidParts rawSk rawT)
    (hdup : isDuplicateB ik genKey st.recentKeys now = false) :
    C4Spec deviceId rawSk rawT ik now genKey genMsgId outcome st := by
  unfold C4Spec
  rw [handleWsMessage_fresh deviceId rawSk rawT ik now genKey genMsgId true outcome st hv hdup]
  exact framesOf_messageTrace _ _ _ _ _ _ _

/-- Closed witness for C4 with no client key and two streamed chunks. -/
theorem C4_witness :
    (ValidParts "agent:main:main" "hi"
      ∧ isDuplicateB none "gen" HandlerState.init.recentKeys 0 = false)
    ∧ C4Spec "d1" "agent:main:main" "hi" none 0 "gen" "mid"
        (DispatchOutcome.ok ["Hel", "lo"]) HandlerState.init :=
  ⟨⟨⟨by decide, by decide, by decide, by decide⟩, by decide⟩,
   C4_frame_order "d1" "agent:main:main" "hi" none 0 "gen" "mid"
     (DispatchOutcome.ok ["Hel", "lo"]) HandlerState.init
     ⟨by decide, by decide, by decide, by decide⟩ (by decide)⟩

/-! ## Claim C3 -/

/-- The registry-consistency facts claimed for the two mutating operations:
after registering, both directions contain the new pair and the invariant is
kept; after unregistering a device, the device is gone from every device set,
its session list is empty, a session whose device set was exactly that device
is removed from the index entirely, every other device is untouched in both
directions, and the invariant is kept. -/
def C3Spec (r : SessionRegistry) (d s : String) : Prop :=
  (s ∈ getSessionsForDevice d (registerDeviceSession d s r)
   ∧ d ∈ getDevicesForSession s (registerDeviceSession d s r)
   ∧ Consistent (registerDeviceSession d s r))
  ∧ ((∀ sk, d ∉ getDevicesForSession sk (unregisterDevice d r))
     ∧ getSessionsForDevice d (unregisterDevice d r) = []
     ∧ (∀ sk, getDevicesForSession sk r = [d] →
          mapGet (unregisterDevice d r).sessionToDevices sk = none)
     ∧ (∀ d2, d2 ≠ d →
          getSessionsForDevice d2 (unregisterDevice d r) = getSessionsForDevice d2 r
          ∧ ∀ sk, (d2 ∈ getDevicesForSession sk (unregisterDevice d r)
                    ↔ d2 ∈ getDevicesForSession sk r))
     ∧ Consistent (unregisterDevice d r))

/-- C3: the session registry keeps the bidirectional relation consistent
under every operation: registerDeviceSession makes the pair visible from both
sides, unregisterDevice removes the device from the device set of every session,
empties its session list, drops sessions whose device set became empty from
the index entirely, and leaves the mappings of every other device unchanged. -/
theorem C3_registry_consistency (r : SessionRegistry) (hr : Consistent r)
    (d s : String) : C3Spec r d s := by
  refine ⟨⟨?_, ?_, consistent_register d s r hr⟩,
    not_mem_devices_unregister d r hr,
    getSessionsForDevice_unregister_self d r,
    fun sk => empty_session_removed_unregister d r hr sk,
    fun d2 hd2 => ⟨getSessionsForDevice_unregister_ne d d2 r hd2,
      fun sk => mem_devices_unregister_other d d2 r hd2 sk⟩,
    consistent_unregister d r hr⟩
  · rw [getSessionsForDevice_register, if_pos rfl]
    exact mem_addElem _ s
  · rw [getDevicesForSession_register, if_pos rfl]
    exact mem_addElem _ d

/-- Closed witness for C3 at a two-device registry. -/
theorem C3_witness :
    Consistent (registerDeviceSession "d2" "agent:main:main" SessionRegistry.empty)
    ∧ C3Spec (registerDeviceSession "d2" "agent:main:main" SessionRegistry.empty)
        "d1" "agent:main:main" :=
  ⟨consistent_register "d2" "agent:main:main" SessionRegistry.empty consistent_empty,
   C3_registry_consistency (registerDeviceSession "d2" "agent:main:main" SessionRegistry.empty)
     (consistent_register "d2" "agent:main:main" SessionRegistry.empty consistent_empty)
     "d1" "agent:main:main"⟩

/-! ## Claim C6 -/

/-- C6 (code bug): the claim (and outbound.test.ts) say sendText resolves the
framing session key from the sessions mapped to the device, falling back to
the device id only when none is mapped. The code assigns
`const sessionKey = deviceId` and never consults the registry: here the
registry maps device "device-ws" to session "agent:main:main", yet the frame
sendText writes carries session key "device-ws". -/
theorem C6_sessionKey_ignores_registry :
    getSessionsForDevice "device-ws"
        (registerDeviceSession "device-ws" "agent:main:main" SessionRegistry.empty)
      = ["agent:main:main"]
    ∧ (sendText "device-ws" "Hello".data "m1" 7 (some true) none none none none
        (some ⟨"key1", "team1"⟩)).1
      = [OutEffect.wsSend "device-ws" "Hello".data "m1" true]
    ∧ "device-ws" ≠ "agent:main:main" := by
  decide

/-! ## Claim C7 -/

/-- The eviction facts: closing the prior open connection with close code
4005, the registry holding the device exactly once with the new connection
live, and the stale close handler of the evicted connection leaving the
client registry untouched. -/
def C7Spec (clients : List (String × Nat)) (isOpen : Nat → Bool)
    (d : String) (c1 c2 : Nat) : Prop :=
  (evictAndRegister clients isOpen d c2).2 = [(c1, 4005)]
  ∧ mapGet (evictAndRegister clients isOpen d c2).1 d = some c2
  ∧ (getWsConnectedDeviceIds (evictAndRegister clients isOpen d c2).1).count d = 1
  ∧ ∀ registry,
      (closeHandler (evictAndRegister clients isOpen d c2).1 registry d c1).1
        = (evictAndRegister clients isOpen d c2).1

theorem keys_mapSet_of_get_some {α : Type} (m : List (String × α)) (k : String)
    (v w : α) (h : mapGet m k = some w) :
    (mapSet m k v).map Prod.fst = m.map Prod.fst := by
  induction m with
  | nil => simp [mapGet] at h
  | cons p rest ih =>
    obtain ⟨k0, v0⟩ := p
    by_cases h0 : k0 = k
    · subst h0
      simp [mapSet]
    · simp only [mapGet, if_neg h0] at h
      simp [mapSet, h0, ih h]

theorem count_keys_eq_one {α : Type} (m : List (String × α)) (k : String)
    (hnd : (m.map Prod.fst).Nodup) (hg : mapGet m k ≠ none) :
    (m.map Prod.fst).count k = 1 := by
  induction m with
  | nil => simp [mapGet] at hg
  | cons p rest ih =>
    obtain ⟨k0, v0⟩ := p
    simp only [List.map_cons, List.nodup_cons] at hnd
    by_cases h0 : k0 = k
    · subst h0
      simp [List.count_cons, List.count_eq_zero_of_not_mem hnd.1]
    · simp only [mapGet, if_neg h0] at hg
      simp [List.count_cons, h0, ih hnd.2 hg]

/-- C7: authenticating a second connection for a device closes the first with
the connection-replaced close code and replaces it in the client registry;
afterwards the connected device ids contain the device exactly once with the
second connection live, and the close handler later firing on the superseded
connection does not remove the newer connection from the client registry. -/
theorem C7_eviction_and_stale_close_guard
    (clients : List (String × Nat)) (isOpen : Nat → Bool) (d : String) (c1 c2 : Nat)
    (hc : mapGet clients d = some c1) (hopen : isOpen c1 = true) (hne : c1 ≠ c2)
    (hnd : (getWsConnectedDeviceIds clients).Nodup) :
    C7Spec clients isOpen d c1 c2 := by
  have hget : mapGet (mapSet clients d c2) d = some c2 := mapGet_mapSet_self clients d c2
  refine ⟨?_, ?_, ?_, ?_⟩
  · simp [evictAndRegister, hc, hopen]
  · simpa [evictAndRegister] using hget
  · have hkeys := keys_mapSet_of_get_some clients d c2 c1 hc
    simp only [evictAndRegister, getWsConnectedDeviceIds, hkeys]
    exact count_keys_eq_one clients d
      (by simpa [getWsConnectedDeviceIds] using hnd) (by simp [hc])
  · intro registry
    simp only [closeHandler, evictAndRegister] at *
    rw [hget]
    simp [Ne.symm hne]

/-- Closed witness for C7 at a concrete registry. -/
theorem C7_witness :
    (mapGet [("d1", 1)] "d1" = some 1 ∧ (1 : Nat) ≠ 2
      ∧ (getWsConnectedDeviceIds [("d1", 1)]).Nodup)
    ∧ C7Spec [("d1", 1)] (fun _ => true) "d1" 1 2 :=
  ⟨⟨by decide, by decide, by decide⟩,
   C7_eviction_and_stale_close_guard [("d1", 1)] (fun _ => true) "d1" 1 2
     (by decide) rfl (by decide) (by decide)⟩

/-! ## Claim C9 -/

/-- C9 counterexample: a parsed frame of type "push.register" is neither
"ping" nor "message", yet handleWsMessage does not reply with the
unknown-type error frame; it runs the push-registration branch (here: the
missing token/topic error). -/
theorem C9_counterexample_push_register :
    handleWsMessage true "d1"
        (InboundRaw.msg ⟨some "push.register", none, none, none, none, none⟩)
        0 "g" "m" true (DispatchOutcome.ok []) HandlerState.init
      = (HandlerState.init,
         [Effect.send (Frame.error "push.register requires token and topic")])
    ∧ (some "push.register" : Option String) ≠ some "ping"
    ∧ (some "push.register" : Option String) ≠ some "message"
    ∧ Frame.error "push.register requires token and topic"
        ≠ Frame.error ("unknown message type: " ++ showMsgType (some "push.register")) := by
  decide

/-- C9 as amended: for every parsed inbound frame whose type is neither
"ping", nor "push.register", nor "message", handleWsMessage replies with the
structured unknown-type error frame, performs no other effect (in particular
no close and no dispatch) and leaves the state unchanged. -/
theorem C9_unknown_type_error
    (m : WsMsg) (t deviceId : String) (now : Nat) (genKey genMsgId : String)
    (pushRegOk : Bool) (outcome : DispatchOutcome) (st : HandlerState)
    (ht : m.type = some t)
    (h1 : t ≠ "ping") (h2 : t ≠ "push.register") (h3 : t ≠ "message") :
    handleWsMessage true deviceId (InboundRaw.msg m) now genKey genMsgId pushRegOk outcome st
      = (st, [Effect.send (Frame.error ("unknown message type: " ++ t))]) := by
  simp [handleWsMessage, ht, h1, h2, h3, sendFrame, showMsgType]

/-- Closed witness for C9 at type "bogus". -/
theorem C9_witness :
    ((some "bogus" : Option String) = some "bogus" ∧ "bogus" ≠ "ping"
      ∧ "bogus" ≠ "push.register" ∧ "bogus" ≠ "message")
    ∧ handleWsMessage true "d1" (InboundRaw.msg ⟨some "bogus", none, none, none, none, none⟩)
        0 "g" "m" true (DispatchOutcome.ok []) HandlerState.init
      = (HandlerState.init,
         [Effect.send (Frame.error ("unknown message type: " ++ "bogus"))]) :=
  ⟨⟨rfl, by decide, by decide, by decide⟩,
   C9_unknown_type_error ⟨some "bogus", none, none, none, none, none⟩ "bogus" "d1" 0 "g" "m"
     true (DispatchOutcome.ok []) HandlerState.init rfl (by decide) (by decide) (by decide)⟩

/-! ## Claim C5 -/

/-- Device mapping for the C5 scenario: session "agent:main:main" has the one
registered device "d1". -/
def devicesForC5 : String → List String :=
  fun sk => if sk = "agent:main:main" then ["d1"] else []

def isOpenC5 : String → Bool := fun _ => true

/-- Text resolution for the C5 scenario: every event resolves to "hello". -/
def resolveTextC5 : AgentEvt → String := fun _ => "hello"

/-- An assistant event emitted by the run whose runId is the dispatch
correlation id (the idempotency key "idem-1") of the inbound message. -/
def evtC5 : AgentEvt := ⟨"idem-1", 1, "assistant", none, some "agent:main:main"⟩

/-- C5 (code bug): the claim (and the comments in the event listener) say a
run served by the request/response path has its run identifier in the
active-dispatch marker set, so its events are dropped. handleWsMessage starts
the dispatch with runId "idem-1" but never calls markDispatchActive (it only
touches the idempotency map and session registry), so the marker set stays
empty and the event of the active run IS forwarded: one agentText frame is
produced instead of zero. -/
theorem C5_active_dispatch_events_forwarded :
    Effect.dispatch "hi" "agent:main:main" "idem-1"
        ∈ (handleWsMessage true "d1"
            (InboundRaw.msg (mkMsg "agent:main:main" "hi" (some "idem-1")))
            0 "gen" "mid" true (DispatchOutcome.ok ["hello"]) HandlerState.init).2
    ∧ ListenerState.init.activeDispatchRunIds = []
    ∧ (handleAgentEvent devicesForC5 isOpenC5 resolveTextC5 "g1" ListenerState.init evtC5).2
        = [("d1", Frame.agentText "agent:main:main" "hello" "g1")] := by
  decide

/-! ## Claim C8 -/

theorem flatten_sendToDevice (isOpen : String → Bool) (ds : List String) (f : Frame)
    (h : ∀ d ∈ ds, isOpen d = true) :
    (ds.map (fun d => sendToDevice isOpen d f)).flatten = ds.map (fun d => (d, f)) := by
  induction ds with
  | nil => rfl
  | cons d rest ih =>
    have hd : sendToDevice isOpen d f = [(d, f)] := by
      simp [sendToDevice, h d (List.mem_cons_self d rest)]
    simp only [List.map_cons, List.flatten_cons, hd,
      ih (fun x hx => h x (List.mem_cons_of_mem d hx))]
    rfl

/-- An event of a run marked as an active dispatch is a no-op. -/
theorem handleAgentEvent_active (devicesFor : String → List String)
    (isOpen : String → Bool) (resolveText : AgentEvt → String) (genId : String)
    (st : ListenerState) (evt : AgentEvt)
    (h : evt.runId ∈ st.activeDispatchRunIds) :
    handleAgentEvent devicesFor isOpen resolveText genId st evt = (st, []) := by
  simp [handleAgentEvent, h]

/-- An event whose session key maps to zero devices is a no-op. -/
theorem handleAgentEvent_no_devices (devicesFor : String → List String)
    (isOpen : String → Bool) (resolveText : AgentEvt → String) (genId : String)
    (st : ListenerState) (evt : AgentEvt) (sk : String)
    (hsk : evt.sessionKey = some sk) (hds : devicesFor sk = []) :
    handleAgentEvent devicesFor isOpen resolveText genId st evt = (st, []) := by
  by_cases h : evt.runId ∈ st.activeDispatchRunIds
  · simp [handleAgentEvent, h]
  · simp [handleAgentEvent, h, hsk, hds]

/-- An assistant event with no existing buffer creates the buffer under a
fresh message id and forwards one agentText to every mapped device. -/
theorem handleAgentEvent_assistant_fresh (devicesFor : String → List String)
    (isOpen : String → Bool) (resolveText : AgentEvt → String) (genId : String)
    (st : ListenerState) (evt : AgentEvt) (sk : String)
    (hrun : evt.runId ∉ st.activeDispatchRunIds)
    (hsk : evt.sessionKey = some sk) (hds : devicesFor sk ≠ [])
    (hstream : evt.stream = "assistant") (htext : resolveText evt ≠ "")
    (hbuf : mapGet st.runBuffers evt.runId = none) :
    handleAgentEvent devicesFor isOpen resolveText genId st evt
      = ({ st with runBuffers := mapSet st.runBuffers evt.runId genId },
         ((devicesFor sk).map (fun d =>
            sendToDevice isOpen d (Frame.agentText sk (resolveText evt) genId))).flatten) := by
  simp [handleAgentEvent, hrun, hsk, hds, hstream, htext, hbuf]

/-- An assistant event with an existing buffer reuses its message id and
leaves the state unchanged. -/
theorem handleAgentEvent_assistant_buffered (devicesFor : String → List String)
    (isOpen : String → Bool) (resolveText : AgentEvt → String) (genId : String)
    (st : ListenerState) (evt : AgentEvt) (sk mid : String)
    (hrun : evt.runId ∉ st.activeDispatchRunIds)
    (hsk : evt.sessionKey = some sk) (hds : devicesFor sk ≠ [])
    (hstream : evt.stream = "assistant") (htext : resolveText evt ≠ "")
    (hbuf : mapGet st.runBuffers evt.runId = some mid) :
    handleAgentEvent devicesFor isOpen resolveText genId st evt
      = (st,
         ((devicesFor sk).map (fun d =>
            sendToDevice isOpen d (Frame.agentText sk (resolveText evt) mid))).flatten) := by
  simp [handleAgentEvent, hrun, hsk, hds, hstream, htext, hbuf]

/-- A terminal lifecycle event with a live buffer forwards agentDone with the
buffered message id, marks it delivered and discards the buffer. -/
theorem handleAgentEvent_lifecycle_terminal (devicesFor : String → List String)
    (isOpen : String → Bool) (resolveText : AgentEvt → String) (genId : String)
    (st : ListenerState) (evt : AgentEvt) (sk mid : String)
    (hrun : evt.runId ∉ st.activeDispatchRunIds)
    (hsk : evt.sessionKey = some sk) (hds : devicesFor sk ≠ [])
    (hstream : evt.stream = "lifecycle")
    (hphase : evt.phase = some "end" ∨ evt.phase = some "error")
    (hbuf : mapGet st.runBuffers evt.runId = some mid) :
    handleAgentEvent devicesFor isOpen resolveText genId st evt
      = ({ activeDispatchRunIds := st.activeDispatchRunIds
           deliveredMessageIds := pruneDelivered (addElem st.deliveredMessageIds mid)
           runBuffers := mapDelete st.runBuffers evt.runId },
         ((devicesFor sk).map (fun d =>
            sendToDevice isOpen d (Frame.agentDone sk mid))).flatten) := by
  rcases hphase with h | h <;>
    simp [handleAgentEvent, hrun, hsk, hds, hstream, h, hbuf]

/-- A terminal lifecycle event with no buffer is a no-op. -/
theorem handleAgentEvent_lifecycle_no_buffer (devicesFor : String → List String)
    (isOpen : String → Bool) (resolveText : AgentEvt → String) (genId : String)
    (st : ListenerState) (evt : AgentEvt) (sk : String)
    (hrun : evt.runId ∉ st.activeDispatchRunIds)
    (hsk : evt.sessionKey = some sk) (hds : devicesFor sk ≠ [])
    (hstream : evt.stream = "lifecycle")
    (hphase : evt.phase = some "end" ∨ evt.phase = some "error")
    (hbuf : mapGet st.runBuffers evt.runId = none) :
    handleAgentEvent devicesFor isOpen resolveText genId st evt = (st, []) := by
  rcases hphase with h | h <;>
    simp [handleAgentEvent, hrun, hsk, hds, hstream, h, hbuf]

/-- Device mapping for the C8 witness: two devices on the session. -/
def devicesForC8 : String → List String :=
  fun sk => if sk = "agent:main:main" then ["d1", "d2"] else []

/-- Text resolution for the C8 witness: assistant events resolve to "x". -/
def resolveTextC8 : AgentEvt → String :=
  fun e => if e.stream = "assistant" then "x" else ""

/-- The forwarding behaviour claimed for the proactive event forwarder:
events of runs in the active-dispatch marker set produce zero frames, events
of sessions with zero mapped devices produce zero frames, and three
sequential assistant events for one fresh run produce one agentText frame per
mapped device each, all under the message id generated at the first event,
followed by exactly one agentDone per device on the first terminal lifecycle
event, after which the buffer is gone and a second terminal event produces
nothing. -/
def C8Spec (devicesFor : String → List String) (isOpen : String → Bool)
    (resolveText : AgentEvt → String) (st : ListenerState) (sk r : String)
    (e1 e2 e3 e4 e5 : AgentEvt) (g1 g2 g3 g4 g5 : String) : Prop :=
  (∀ evt genId st2, evt.runId ∈ st2.activeDispatchRunIds →
      handleAgentEvent devicesFor isOpen resolveText genId st2 evt = (st2, []))
  ∧ (∀ evt genId st2 sk2, evt.sessionKey = some sk2 → devicesFor sk2 = [] →
      handleAgentEvent devicesFor isOpen resolveText genId st2 evt = (st2, []))
  ∧ (let s1 := handleAgentEvent devicesFor isOpen resolveText g1 st e1
     let s2 := handleAgentEvent devicesFor isOpen resolveText g2 s1.1 e2
     let s3 := handleAgentEvent devicesFor isOpen resolveText g3 s2.1 e3
     let s4 := handleAgentEvent devicesFor isOpen resolveText g4 s3.1 e4
     let s5 := handleAgentEvent devicesFor isOpen resolveText g5 s4.1 e5
     s1.2 = (devicesFor sk).map (fun d => (d, Frame.agentText sk (resolveText e1) g1))
     ∧ s2.2 = (devicesFor sk).map (fun d => (d, Frame.agentText sk (resolveText e2) g1))
     ∧ s3.2 = (devicesFor sk).map (fun d => (d, Frame.agentText sk (resolveText e3) g1))
     ∧ s4.2 = (devicesFor sk).map (fun d => (d, Frame.agentDone sk g1))
     ∧ mapGet s4.1.runBuffers r = none
     ∧ s5 = (s4.1, []))

/-- C8: the proactive event forwarder drops events of marked runs and of
sessions with no mapped devices, forwards sequential assistant events of one
run as agentText frames sharing the message id generated on the first event,
and on a terminal lifecycle event emits exactly one agentDone per device with
that id and discards the buffer, making a second terminal event a no-op. -/
theorem C8_proactive_forwarding (devicesFor : String → List String)
    (isOpen : String → Bool) (resolveText : AgentEvt → String)
    (st : ListenerState) (sk r : String) (e1 e2 e3 e4 e5 : AgentEvt)
    (g1 g2 g3 g4 g5 : String)
    (hract : r ∉ st.activeDispatchRunIds) (hrbuf : mapGet st.runBuffers r = none)
    (hds : devicesFor sk ≠ []) (hopen : ∀ d ∈ devicesFor sk, isOpen d = true)
    (he1 : e1.runId = r ∧ e1.stream = "assistant" ∧ e1.sessionKey = some sk
      ∧ resolveText e1 ≠ "")
    (he2 : e2.runId = r ∧ e2.stream = "assistant" ∧ e2.sessionKey = some sk
      ∧ resolveText e2 ≠ "")
    (he3 : e3.runId = r ∧ e3.stream = "assistant" ∧ e3.sessionKey = some sk
      ∧ resolveText e3 ≠ "")
    (he4 : e4.runId = r ∧ e4.stream = "lifecycle" ∧ e4.sessionKey = some sk
      ∧ (e4.phase = some "end" ∨ e4.phase = some "error"))
    (he5 : e5.runId = r ∧ e5.stream = "lifecycle" ∧ e5.sessionKey = some sk
      ∧ (e5.phase = some "end" ∨ e5.phase = some "error")) :
    C8Spec devicesFor isOpen resolveText st sk r e1 e2 e3 e4 e5 g1 g2 g3 g4 g5 := by
  obtain ⟨he1r, he1s, he1k, he1t⟩ := he1
  obtain ⟨he2r, he2s, he2k, he2t⟩ := he2
  obtain ⟨he3r, he3s, he3k, he3t⟩ := he3
  obtain ⟨he4r, he4s, he4k, he4p⟩ := he4
  obtain ⟨he5r, he5s, he5k, he5p⟩ := he5
  refine ⟨fun evt genId st2 h => handleAgentEvent_active _ _ _ _ _ _ h,
    fun evt genId st2 sk2 h1 h2 => handleAgentEvent_no_devices _ _ _ _ _ _ _ h1 h2, ?_⟩
  have hfr := flatten_sendToDevice isOpen (devicesFor sk)
  have eq1 := handleAgentEvent_assistant_fresh devicesFor isOpen resolveText g1 st e1 sk
    (he1r ▸ hract) he1k hds he1s he1t (he1r ▸ hrbuf)
  set st1 : ListenerState := { st with runBuffers := mapSet st.runBuffers e1.runId g1 }
    with hst1
  have hact1 : r ∉ st1.activeDispatchRunIds := hract
  have hbuf1 : mapGet st1.runBuffers r = some g1 := by
    rw [hst1]
    simp only [he1r]
    exact mapGet_mapSet_self st.runBuffers r g1
  have eq2 := handleAgentEvent_assistant_buffered devicesFor isOpen resolveText g2 st1 e2 sk
    g1 (he2r ▸ hact1) he2k hds he2s he2t (he2r ▸ hbuf1)
  have eq3 := handleAgentEvent_assistant_buffered devicesFor isOpen resolveText g3 st1 e3 sk
    g1 (he3r ▸ hact1) he3k hds he3s he3t (he3r ▸ hbuf1)
  have eq4 := handleAgentEvent_lifecycle_terminal devicesFor isOpen resolveText g4 st1 e4 sk
    g1 (he4r ▸ hact1) he4k hds he4s he4p (he4r ▸ hbuf1)
  set st4 : ListenerState :=
    { activeDispatchRunIds := st1.activeDispatchRunIds
      deliveredMessageIds := pruneDelivered (addElem st1.deliveredMessageIds g1)
      runBuffers := mapDelete st1.runBuffers e4.runId } with hst4
  have hbuf4 : mapGet st4.runBuffers r = none := by
    rw [hst4]
    simp only [he4r]
    exact mapGet_mapDelete_self st1.runBuffers r
  have eq5 := handleAgentEvent_lifecycle_no_buffer devicesFor isOpen resolveText g5 st4 e5 sk
    (he5r ▸ hact1) he5k hds he5s he5p (he5r ▸ hbuf4)
  simp only [eq1, eq2, eq3, eq4, eq5, hfr _ hopen]
  exact ⟨trivial, trivial, trivial, trivial, hbuf4, trivial⟩

/-- Closed witness for C8: one run, two mapped devices, three assistant
events then two terminal lifecycle events. -/
theorem C8_witness :
    ("r1" ∉ ListenerState.init.activeDispatchRunIds
      ∧ mapGet ListenerState.init.runBuffers "r1" = none
      ∧ devicesForC8 "agent:main:main" ≠ []
      ∧ ∀ d ∈ devicesForC8 "agent:main:main", isOpenC5 d = true)
    ∧ C8Spec devicesForC8 isOpenC5 resolveTextC8 ListenerState.init "agent:main:main" "r1"
        ⟨"r1", 1, "assistant", none, some "agent:main:main"⟩
        ⟨"r1", 2, "assistant", none, some "agent:main:main"⟩
        ⟨"r1", 3, "assistant", none, some "agent:main:main"⟩
        ⟨"r1", 4, "lifecycle", some "end", some "agent:main:main"⟩
        ⟨"r1", 5, "lifecycle", some "end", some "agent:main:main"⟩
        "g1" "g2" "g3" "g4" "g5" :=
  ⟨⟨by decide, rfl, by decide, by decide⟩,
   C8_proactive_forwarding devicesForC8 isOpenC5 resolveTextC8 ListenerState.init
     "agent:main:main" "r1"
     ⟨"r1", 1, "assistant", none, some "agent:main:main"⟩
     ⟨"r1", 2, "assistant", none, some "agent:main:main"⟩
     ⟨"r1", 3, "assistant", none, some "agent:main:main"⟩
     ⟨"r1", 4, "lifecycle", some "end", some "agent:main:main"⟩
     ⟨"r1", 5, "lifecycle", some "end", some "agent:main:main"⟩
     "g1" "g2" "g3" "g4" "g5"
     (by decide) rfl (by decide) (by decide)
     ⟨rfl, rfl, rfl, by decide⟩ ⟨rfl, rfl, rfl, by decide⟩ ⟨rfl, rfl, rfl, by decide⟩
     ⟨rfl, rfl, rfl, Or.inl rfl⟩ ⟨rfl, rfl, rfl, Or.inl rfl⟩⟩

/-! ## Claim C10 -/

/-- The frame effect of the unconditional unregisterDevice in the close
handler: after eviction, a close event on the superseded connection leaves the
newer connection registered but erases every session mapping of the device. -/
def C10Spec (clients : List (String × Nat)) (registry : SessionRegistry)
    (isOpen : Nat → Bool) (d : String) (c1 c2 : Nat) : Prop :=
  mapGet (closeHandler (evictAndRegister clients isOpen d c2).1 registry d c1).1 d = some c2
  ∧ getSessionsForDevice d
      (closeHandler (evictAndRegister clients isOpen d c2).1 registry d c1).2 = []
  ∧ ∀ sk, d ∉ getDevicesForSession sk
      (closeHandler (evictAndRegister clients isOpen d c2).1 registry d c1).2

/-- C10: when the connection for a device is superseded by a newer
authenticated connection, the close event of the old connection still calls
unregisterDevice unconditionally, erasing all session mappings of
the device, while the only-if-current guard keeps the newer connection in the
client registry. -/
theorem C10_stale_close_erases_sessions
    (clients : List (String × Nat)) (registry : SessionRegistry) (isOpen : Nat → Bool)
    (d : String) (c1 c2 : Nat)
    (hne : c1 ≠ c2) (hr : Consistent registry) :
    C10Spec clients registry isOpen d c1 c2 := by
  have hget : mapGet (mapSet clients d c2) d = some c2 := mapGet_mapSet_self clients d c2
  refine ⟨?_, ?_, ?_⟩
  · simp only [closeHandler, evictAndRegister]
    rw [hget]
    simp [Ne.symm hne, hget]
  · simpa [closeHandler] using getSessionsForDevice_unregister_self d registry
  · intro sk
    simpa [closeHandler] using not_mem_devices_unregister d registry hr sk

/-- Closed witness for C10 at a one-device, one-session registry. -/
theorem C10_witness :
    ((1 : Nat) ≠ 2
      ∧ Consistent (registerDeviceSession "d1" "agent:main:main" SessionRegistry.empty))
    ∧ C10Spec [("d1", 1)]
        (registerDeviceSession "d1" "agent:main:main" SessionRegistry.empty)
        (fun _ => true) "d1" 1 2 :=
  ⟨⟨by decide,
    consistent_register "d1" "agent:main:main" SessionRegistry.empty consistent_empty⟩,
   C10_stale_close_erases_sessions [("d1", 1)]
     (registerDeviceSession "d1" "agent:main:main" SessionRegistry.empty)
     (fun _ => true) "d1" 1 2 (by decide)
     (consistent_register "d1" "agent:main:main" SessionRegistry.empty consistent_empty)⟩

end Talktollm
